import Mathlib

set_option maxRecDepth 8000

/-!
Verification of the Sentinel-2 field-analyzer core (`src/app.py`,
class `SimpleSentinelProcessor`) against its natural-language specification.

Modelling conventions used throughout this development:
* Python floats are modelled by `ℚ`; the transcendental library functions
  (`math.sin`, `math.cos`, `math.sqrt`, `math.pi`) and the `random` module
  (Mersenne-Twister stream seeded via the builtin string `hash`) are opaque
  external collaborators, so they are collected in a parameter structure
  `SimEnv`; every theorem quantifies over an arbitrary environment.  The one
  documented contract of `random.randint(a, b)` — the result lies in `[a, b]`
  inclusive — is carried as a proof field of the structure.
* `datetime` values (always whole days here) are modelled by a `Date`
  record (proleptic Gregorian year/month/day); `datetime.strptime` with
  format `%Y-%m-%d`, `timedelta(days=n)`, `timetuple().tm_yday` and date
  comparison are modelled faithfully below.  Comparison of valid dates is
  mediated by the order-embedding `dkey`.
* Python `round(x, n)` is modelled as rounding to the nearest multiple of
  `10⁻ⁿ` (`roundTo`); the tie-breaking rule is irrelevant to every claim.
-/

/-- A calendar date, as carried by a Python `datetime` at midnight. -/
structure Date where
  year : ℤ
  month : ℕ
  day : ℕ
deriving DecidableEq, Repr

/-- Gregorian leap-year test. -/
def isLeap (y : ℤ) : Bool :=
  y % 4 == 0 && (y % 100 != 0 || y % 400 == 0)

/-- Number of days in a month of a given year (31 for out-of-range months,
which never arise from valid dates). -/
def daysInMonth (y : ℤ) (m : ℕ) : ℕ :=
  if m = 2 then (if isLeap y then 29 else 28)
  else if m = 4 ∨ m = 6 ∨ m = 9 ∨ m = 11 then 30
  else 31

/-- A `Date` that a Python `datetime` can actually hold. -/
def Date.Valid (d : Date) : Prop :=
  1 ≤ d.month ∧ d.month ≤ 12 ∧ 1 ≤ d.day ∧ d.day ≤ daysInMonth d.year d.month

instance (d : Date) : Decidable d.Valid :=
  inferInstanceAs (Decidable (_ ∧ _ ∧ _ ∧ _))

/-- Order-embedding of valid dates into `ℤ`: since `month ≤ 12 < 16` and
`day ≤ 31 < 32`, `dkey` orders valid dates exactly as Python's `datetime`
comparison (lexicographic on year, month, day). -/
def dkey (d : Date) : ℤ :=
  512 * d.year + 32 * (d.month : ℤ) + (d.day : ℤ)

/-- Model of `datetime` comparison `a <= b` on valid dates. -/
def dateLe (a b : Date) : Prop := dkey a ≤ dkey b

/-- Model of `datetime` comparison `a < b` on valid dates. -/
def dateLt (a b : Date) : Prop := dkey a < dkey b

instance (a b : Date) : Decidable (dateLe a b) :=
  inferInstanceAs (Decidable (dkey a ≤ dkey b))

instance (a b : Date) : Decidable (dateLt a b) :=
  inferInstanceAs (Decidable (dkey a < dkey b))

/-- The day after `d` (the effect of `+ timedelta(days=1)`). -/
def succDay (d : Date) : Date :=
  if d.day < daysInMonth d.year d.month then ⟨d.year, d.month, d.day + 1⟩
  else if d.month < 12 then ⟨d.year, d.month + 1, 1⟩
  else ⟨d.year + 1, 1, 1⟩

/-- The effect of `+ timedelta(days=n)` for `n ≥ 0`. -/
def addDays (d : Date) : ℕ → Date
  | 0 => d
  | n + 1 => addDays (succDay d) n

/-- Day of year, as Python's `timetuple().tm_yday`. -/
def dayOfYear (d : Date) : ℕ :=
  ((List.range (d.month - 1)).map (fun i => daysInMonth d.year (i + 1))).sum + d.day

/-- Split a character list at every `'-'` (the separator structure of the
`%Y-%m-%d` format). -/
def splitDash : List Char → List (List Char)
  | [] => [[]]
  | c :: cs =>
    if c = '-' then [] :: splitDash cs
    else
      match splitDash cs with
      | [] => [[c]]
      | p :: ps => (c :: p) :: ps

/-- Value of a nonempty all-digit character group; `none` otherwise. -/
def digitsToNat : List Char → Option ℕ
  | [] => none
  | cs =>
    if cs.all (fun c => c.isDigit)
    then some (cs.foldl (fun a c => a * 10 + (c.toNat - 48)) 0)
    else none

/-- Model of `datetime.strptime(s, "%Y-%m-%d")`, returning `none` exactly when
Python raises: the year must be four digits (and at least 1, per
`datetime.MINYEAR`), month and day one or two digits, and the triple must be a
real calendar date.  Returns `none` on any trailing/extra characters, which is
what `strptime` does with unconverted data. -/
def parseDate (s : String) : Option Date :=
  match splitDash s.data with
  | [ys, ms, ds] =>
    match digitsToNat ys, digitsToNat ms, digitsToNat ds with
    | some y, some m, some d =>
      if ys.length = 4 ∧ 1 ≤ y ∧ ms.length ≤ 2 ∧ 1 ≤ m ∧ m ≤ 12 ∧
          ds.length ≤ 2 ∧ 1 ≤ d ∧ d ≤ daysInMonth (y : ℤ) m
      then some ⟨(y : ℤ), m, d⟩ else none
    | _, _, _ => none
  | _ => none

/-- Model of Python `round(x, n)`: round to the nearest multiple of `10⁻ⁿ`. -/
def roundTo (n : ℕ) (x : ℚ) : ℚ :=
  ((round (x * 10 ^ n) : ℤ) : ℚ) / 10 ^ n

/-- External collaborators of the core, collected as an environment: the
builtin string `hash`, the `random` module (a deterministic stream over an
abstract state type `σ`, re-seeded by `random.seed`), and the `math`
transcendentals.  `randint_mem` records the documented contract of
`random.randint(a, b)`: the draw lies in `[a, b]` inclusive. -/
structure SimEnv (σ : Type) where
  hashStr : String → ℤ
  seedFn : ℤ → σ
  rand : σ → ℚ × σ
  gauss : ℚ → ℚ → σ → ℚ × σ
  randint : ℤ → ℤ → σ → ℤ × σ
  randint_mem : ∀ lo hi st, lo ≤ hi →
    lo ≤ (randint lo hi st).1 ∧ (randint lo hi st).1 ≤ hi
  sinQ : ℚ → ℚ
  cosQ : ℚ → ℚ
  sqrtQ : ℚ → ℚ
  piQ : ℚ

/-- One sample of the generated vegetation-index series (the dict appended
at app.py:165-171; the `date` field holds the date the code formats with
`strftime("%Y-%m-%d")`). -/
structure SeriesPoint where
  date : Date
  ndvi : ℚ
  cloud_percentage : ℚ
  season : String
  day_of_year : ℕ
deriving DecidableEq, Repr

/-- Climate-zone parameters `(base_ndvi, seasonal_amplitude)` chosen from
`abs(center_lat)` (app.py:117-129). -/
def climateParams (abs_lat : ℚ) : ℚ × ℚ :=
  if abs_lat < 23.5 then (0.65, 0.15)
  else if abs_lat < 40 then (0.45, 0.25)
  else if abs_lat < 60 then (0.35, 0.35)
  else (0.20, 0.15)

/-- Season label from day of year and hemisphere (app.py:183-204). -/
def get_season (day_of_year : ℕ) (is_southern : Bool) : String :=
  if ¬ is_southern then
    if 80 ≤ day_of_year ∧ day_of_year < 172 then "Spring"
    else if 172 ≤ day_of_year ∧ day_of_year < 266 then "Summer"
    else if 266 ≤ day_of_year ∧ day_of_year < 355 then "Autumn"
    else "Winter"
  else
    if 80 ≤ day_of_year ∧ day_of_year < 172 then "Autumn"
    else if 172 ≤ day_of_year ∧ day_of_year < 266 then "Winter"
    else if 266 ≤ day_of_year ∧ day_of_year < 355 then "Spring"
    else "Summer"

/-- The `while current <= end and point_count < 50` loop of
`generate_realistic_ndvi_timeseries` (app.py:141-175).  `fuel` is the
remaining point budget (`50 - point_count`), which bounds the recursion
exactly as the loop guard does. -/
def genLoop {σ : Type} (E : SimEnv σ) (base_ndvi seasonal_amplitude : ℚ)
    (is_southern : Bool) (abs_lat : ℚ) (endD : Date) :
    ℕ → Date → σ → List SeriesPoint
  | 0, _, _ => []
  | fuel + 1, current, st =>
    if dateLe current endD then
      let doy := dayOfYear current
      let phase0 := ((doy : ℚ) / 365) * 2 * E.piQ
      let seasonal_phase := if is_southern then phase0 + E.piQ else phase0
      let seasonal_ndvi := seasonal_amplitude * E.sinQ seasonal_phase
      let g1 := E.gauss 0 0.04 st
      let final_ndvi := max (-0.2) (min 0.9 (base_ndvi + seasonal_ndvi + g1.1))
      let base_cloud : ℚ := if abs_lat < 23.5 then 25 else 15
      let g2 := E.gauss 0 20 g1.2
      let cloud_cover := max 0 (min 100 (base_cloud + g2.1))
      let r := E.randint 3 7 g2.2
      { date := current, ndvi := roundTo 3 final_ndvi,
        cloud_percentage := roundTo 1 cloud_cover,
        season := get_season doy is_southern, day_of_year := doy }
        :: genLoop E base_ndvi seasonal_amplitude is_southern abs_lat endD
            fuel (addDays current r.1.toNat) r.2
    else []

/-- Arithmetic-mean centroid of a vertex list (app.py:108-111). -/
def centroidOf (coords : List (ℚ × ℚ)) : ℚ × ℚ :=
  ((coords.map Prod.fst).sum / (coords.map Prod.fst).length,
   (coords.map Prod.snd).sum / (coords.map Prod.snd).length)

/-- Body of `generate_realistic_ndvi_timeseries` once the field centre is
known: climate classification, date parsing (a parse failure is caught by
the surrounding `except`, which returns `[]`), seeding from
`hash(f"{mgrs_tile}_{start_date}") % 2147483647`, and the sampling loop. -/
def ndviFromCenter {σ : Type} (E : SimEnv σ) (center : ℚ × ℚ)
    (start_date end_date mgrs_tile : String) : List SeriesPoint :=
  let is_southern := decide (center.2 < 0)
  let abs_lat := |center.2|
  let base_ndvi := (climateParams abs_lat).1
  let seasonal_amplitude := (climateParams abs_lat).2
  match parseDate start_date, parseDate end_date with
  | some s, some e =>
    genLoop E base_ndvi seasonal_amplitude is_southern abs_lat e 50 s
      (E.seedFn (E.hashStr (mgrs_tile ++ "_" ++ start_date) % 2147483647))
  | _, _ => []

/-- `generate_realistic_ndvi_timeseries` (app.py:104-181).  On an empty
vertex list the centre computation raises `ZeroDivisionError`, which the
`except` arm turns into `[]`. -/
def generate_realistic_ndvi_timeseries {σ : Type} (E : SimEnv σ)
    (coords : List (ℚ × ℚ)) (start_date end_date mgrs_tile : String) :
    List SeriesPoint :=
  match coords with
  | [] => []
  | _ :: _ => ndviFromCenter E (centroidOf coords) start_date end_date mgrs_tile

/-- One row of the `mgrs_regions` lookup table: a named region with an
axis-aligned bounding box `[min_lon, min_lat, max_lon, max_lat]` and its
representative tile (app.py:19-56). -/
structure MgrsRegion where
  name : String
  min_lon : ℚ
  min_lat : ℚ
  max_lon : ℚ
  max_lat : ℚ
  tile : String
deriving DecidableEq, Repr

/-- The `mgrs_regions` table in its Python insertion order (app.py:19-56). -/
def mgrs_regions : List MgrsRegion :=
  [ ⟨"Southern Africa", 28, -35, 38, -15, "35MPN"⟩,
    ⟨"Eastern Africa", 32, -5, 42, 15, "36MZA"⟩,
    ⟨"Western Africa", -20, 4, 20, 20, "30NXJ"⟩,
    ⟨"Northern Africa", -10, 15, 35, 35, "32SNC"⟩,
    ⟨"Western Europe", -10, 45, 10, 60, "33UUP"⟩,
    ⟨"Eastern Europe", 10, 45, 40, 60, "34UCA"⟩,
    ⟨"Mediterranean", -5, 35, 20, 45, "31TBE"⟩,
    ⟨"US Midwest", -105, 35, -85, 50, "15TWG"⟩,
    ⟨"US Great Plains", -110, 30, -95, 45, "14SMJ"⟩,
    ⟨"US West Coast", -125, 32, -115, 45, "11SKA"⟩,
    ⟨"US East Coast", -85, 25, -70, 45, "18TWL"⟩,
    ⟨"Eastern Canada", -85, 45, -60, 60, "18TVR"⟩,
    ⟨"Western Canada", -125, 50, -100, 65, "11UNQ"⟩,
    ⟨"Northern South America", -80, -10, -50, 15, "20LLP"⟩,
    ⟨"Brazil Central", -65, -25, -45, -5, "22KBA"⟩,
    ⟨"Argentina", -70, -40, -55, -25, "21HUB"⟩,
    ⟨"Chile", -75, -45, -68, -20, "19HDB"⟩,
    ⟨"India", 68, 8, 95, 35, "43RGN"⟩,
    ⟨"China East", 105, 20, 125, 45, "50RKR"⟩,
    ⟨"China West", 75, 30, 105, 45, "44TNL"⟩,
    ⟨"Southeast Asia", 95, -10, 140, 25, "48NUG"⟩,
    ⟨"Central Asia", 45, 35, 85, 55, "42SVF"⟩,
    ⟨"Eastern Australia", 140, -45, 155, -10, "55HBU"⟩,
    ⟨"Western Australia", 110, -35, 130, -15, "50HMH"⟩,
    ⟨"New Zealand", 165, -48, 180, -34, "59GMJ"⟩ ]

/-- Inclusive bounding-box containment, the loop condition at app.py:62. -/
def regionContains (r : MgrsRegion) (lon lat : ℚ) : Prop :=
  r.min_lon ≤ lon ∧ lon ≤ r.max_lon ∧ r.min_lat ≤ lat ∧ lat ≤ r.max_lat

instance (r : MgrsRegion) (lon lat : ℚ) : Decidable (regionContains r lon lat) :=
  inferInstanceAs (Decidable (_ ∧ _ ∧ _ ∧ _))

/-- The `for` loop of `find_mgrs_tile_for_coords` with its early `return`,
followed by the longitude-band fallback (app.py:58-71). -/
def tileSearch (lon lat : ℚ) : List MgrsRegion → String × String
  | [] =>
    if -180 ≤ lon ∧ lon ≤ -30 then ("18TWL", "Americas (default)")
    else if -30 ≤ lon ∧ lon ≤ 60 then ("36MZA", "Europe/Africa (default)")
    else ("48NUG", "Asia/Pacific (default)")
  | r :: rest =>
    if regionContains r lon lat then (r.tile, r.name)
    else tileSearch lon lat rest

/-- `find_mgrs_tile_for_coords` (app.py:58-71): returns `(tile, region_name)`. -/
def find_mgrs_tile_for_coords (lon lat : ℚ) : String × String :=
  tileSearch lon lat mgrs_regions

/-- One simulated availability record (app.py:89-93). -/
structure AvailEntry where
  date : Date
  cloud_cover : ℤ
  quality : String
deriving DecidableEq, Repr

/-- The availability loop of `check_data_availability_simulation`
(app.py:85-96).  The fuel bound is supplied by the caller; it is sufficient
for every environment honouring the `randint` contract, because the date
advances by at least three days per iteration. -/
def availLoop {σ : Type} (E : SimEnv σ) (endD : Date) :
    ℕ → Date → σ → List AvailEntry
  | 0, _, _ => []
  | fuel + 1, current, st =>
    if dateLe current endD then
      let u := E.rand st
      let step1 :=
        if u.1 < 0.7 then
          let cc := E.randint 5 85 u.2
          ([⟨current, cc.1,
            if cc.1 < 30 then "Good" else if cc.1 < 60 then "Fair" else "Poor"⟩],
           cc.2)
        else ([], u.2)
      let r := E.randint 3 7 step1.2
      step1.1 ++ availLoop E endD fuel (addDays current r.1.toNat) r.2
    else []

/-- `check_data_availability_simulation` (app.py:73-102): seeded from
`hash(mgrs_tile) % 2147483647`; a date-parse failure is caught by the
`except` arm and yields `[]`. -/
def check_data_availability_simulation {σ : Type} (E : SimEnv σ)
    (mgrs_tile start_date end_date : String) : List AvailEntry :=
  match parseDate start_date, parseDate end_date with
  | some s, some e =>
    availLoop E e ((dkey e - dkey s).toNat + 1) s
      (E.seedFn (E.hashStr mgrs_tile % 2147483647))
  | _, _ => []

/-- Minimum of a nonempty value list (`min(...)` builtin); 0 on `[]`,
which never occurs in the translated call sites. -/
def listMin : List ℚ → ℚ
  | [] => 0
  | x :: xs => xs.foldl min x

/-- Maximum of a nonempty value list (`max(...)` builtin); 0 on `[]`. -/
def listMax : List ℚ → ℚ
  | [] => 0
  | x :: xs => xs.foldl max x

/-- Mean of a list of rationals (`sum(...) / len(...)`). -/
def meanQ (l : List ℚ) : ℚ := l.sum / (l.length : ℚ)

/-- `analyze_trend` (app.py:250-270). -/
def analyze_trend (ndvi_series : List SeriesPoint) : String :=
  if ndvi_series.length < 5 then "Insufficient data for trend analysis"
  else
    let mid_point := ndvi_series.length / 2
    let first_half := (ndvi_series.take mid_point).map (·.ndvi)
    let second_half := (ndvi_series.drop mid_point).map (·.ndvi)
    let first_avg := first_half.sum / (first_half.length : ℚ)
    let second_avg := second_half.sum / (second_half.length : ℚ)
    let change := second_avg - first_avg
    if change > 0.05 then "Improving vegetation health"
    else if change < -0.05 then "Declining vegetation health"
    else "Stable vegetation health"

/-- Count and percentage for one vegetation-health bucket (app.py:241-245). -/
structure BucketStat where
  count : ℕ
  percentage : ℚ
deriving DecidableEq, Repr

/-- The five-bucket vegetation-health histogram (app.py:240-246). -/
structure VegHealth where
  very_high_vigor : BucketStat
  high_vigor : BucketStat
  medium_vigor : BucketStat
  low_vigor : BucketStat
  very_low_vigor : BucketStat
deriving DecidableEq, Repr

/-- The statistics dict returned by `calculate_field_statistics` on a
non-empty series (app.py:232-248). -/
structure FieldStatistics where
  mean_ndvi : ℚ
  min_ndvi : ℚ
  max_ndvi : ℚ
  std_ndvi : ℚ
  median_ndvi : ℚ
  data_points : ℕ
  mean_cloud_cover : ℚ
  vegetation_health : VegHealth
  trend_analysis : String
deriving DecidableEq, Repr

/-- Result of `calculate_field_statistics`: either the error dict
`{"error": "No NDVI data available"}` for an empty series, or the full
statistics dict. -/
inductive StatsResult where
  | err (msg : String)
  | ok (fs : FieldStatistics)
deriving DecidableEq, Repr

/-- Median field of a statistics result, when present. -/
def StatsResult.medianOf : StatsResult → Option ℚ
  | .err _ => none
  | .ok fs => some fs.median_ndvi

/-- `calculate_field_statistics` (app.py:206-248).  Python's `sorted` is
modelled by `List.insertionSort`, which produces the same ascending
permutation. -/
def calculate_field_statistics {σ : Type} (E : SimEnv σ)
    (ndvi_series : List SeriesPoint) : StatsResult :=
  match ndvi_series with
  | [] => .err "No NDVI data available"
  | _ :: _ =>
    let ndvi_values := ndvi_series.map (·.ndvi)
    let cloud_values := ndvi_series.map (·.cloud_percentage)
    let n : ℚ := (ndvi_values.length : ℚ)
    let mean_ndvi := ndvi_values.sum / n
    let variance := (ndvi_values.map (fun x => (x - mean_ndvi) ^ 2)).sum / n
    let very_high := ndvi_values.countP (fun x => decide (0.7 ≤ x))
    let high := ndvi_values.countP (fun x => decide (0.5 ≤ x ∧ x < 0.7))
    let medium := ndvi_values.countP (fun x => decide (0.3 ≤ x ∧ x < 0.5))
    let low := ndvi_values.countP (fun x => decide (0.1 ≤ x ∧ x < 0.3))
    let very_low := ndvi_values.countP (fun x => decide (x < 0.1))
    let total_points : ℚ := (ndvi_values.length : ℚ)
    .ok
      { mean_ndvi := roundTo 3 mean_ndvi,
        min_ndvi := roundTo 3 (listMin ndvi_values),
        max_ndvi := roundTo 3 (listMax ndvi_values),
        std_ndvi := roundTo 3 (E.sqrtQ variance),
        median_ndvi :=
          roundTo 3 ((ndvi_values.insertionSort (· ≤ ·)).getD
            (ndvi_values.length / 2) 0),
        data_points := ndvi_values.length,
        mean_cloud_cover := roundTo 1 (cloud_values.sum / n),
        vegetation_health :=
          { very_high_vigor := ⟨very_high, roundTo 1 (very_high / total_points * 100)⟩,
            high_vigor := ⟨high, roundTo 1 (high / total_points * 100)⟩,
            medium_vigor := ⟨medium, roundTo 1 (medium / total_points * 100)⟩,
            low_vigor := ⟨low, roundTo 1 (low / total_points * 100)⟩,
            very_low_vigor := ⟨very_low, roundTo 1 (very_low / total_points * 100)⟩ },
        trend_analysis := analyze_trend ndvi_series }

/-- The success payload assembled by `process_field_request` (app.py:315-337). -/
structure ProcessPayload where
  field_name : String
  center_coordinates : ℚ × ℚ
  approximate_area_ha : ℚ
  mgrs_tile : String
  region_name : String
  date_range : String
  processing_timestamp : String
  total_available_dates : ℕ
  good_quality_dates : ℕ
  data_quality_rating : String
  sample_dates : List AvailEntry
  timeseries : List SeriesPoint
  total_data_points : ℕ
  statistics : StatsResult
deriving DecidableEq, Repr

/-- The tagged result of `process_field_request`: the `success: True` dict or
the `success: False` dict carrying the error message, field name and
timestamp (app.py:339-345). -/
inductive FieldResult where
  | ok (p : ProcessPayload)
  | err (error field_name processing_timestamp : String)
deriving DecidableEq, Repr

/-- The `success` flag of a result dict. -/
def FieldResult.success : FieldResult → Bool
  | .ok _ => true
  | .err _ _ _ => false

/-- The generated series carried by a success result. -/
def FieldResult.seriesOf : FieldResult → Option (List SeriesPoint)
  | .ok p => some p.timeseries
  | .err _ _ _ => none

/-- The statistics carried by a success result. -/
def FieldResult.statsOf : FieldResult → Option StatsResult
  | .ok p => some p.statistics
  | .err _ _ _ => none

/-- The total point count carried by a success result. -/
def FieldResult.pointsOf : FieldResult → Option ℕ
  | .ok p => some p.total_data_points
  | .err _ _ _ => none

/-- `process_field_request` (app.py:272-345).  The `ValueError` raised for a
sub-3-vertex polygon is caught by the function's own `except` arm, which
produces the failure dict; `now` stands for `datetime.now().strftime(...)`.
With typed `(lon, lat)` vertices no other statement in the `try` block can
raise, so every other input reaches the success dict. -/
def process_field_request {σ : Type} (E : SimEnv σ) (coordinates : List (ℚ × ℚ))
    (start_date end_date field_name now : String) : FieldResult :=
  if coordinates.length < 3 then
    .err "Need at least 3 coordinate points to form a polygon" field_name now
  else
    let lons := coordinates.map Prod.fst
    let lats := coordinates.map Prod.snd
    let center_lon := lons.sum / (lons.length : ℚ)
    let center_lat := lats.sum / (lats.length : ℚ)
    let lat_km := |listMax lats - listMin lats| * 111
    let lon_km := |listMax lons - listMin lons| * 111 *
      E.cosQ (center_lat * E.piQ / 180)
    let approx_area_ha := lat_km * lon_km * 100
    let tr := find_mgrs_tile_for_coords center_lon center_lat
    let available_dates :=
      check_data_availability_simulation E tr.1 start_date end_date
    let ndvi_timeseries :=
      generate_realistic_ndvi_timeseries E coordinates start_date end_date tr.1
    let field_stats := calculate_field_statistics E ndvi_timeseries
    let good_quality_dates := available_dates.filter (fun d => d.quality == "Good")
    let data_quality :=
      if (good_quality_dates.length : ℚ) > (available_dates.length : ℚ) * 0.7
      then "Excellent"
      else if (good_quality_dates.length : ℚ) > (available_dates.length : ℚ) * 0.4
      then "Good"
      else if 0 < available_dates.length then "Fair" else "Poor"
    .ok
      { field_name := field_name,
        center_coordinates := (roundTo 6 center_lon, roundTo 6 center_lat),
        approximate_area_ha := roundTo 2 approx_area_ha,
        mgrs_tile := tr.1,
        region_name := tr.2,
        date_range := start_date ++ " to " ++ end_date,
        processing_timestamp := now,
        total_available_dates := available_dates.length,
        good_quality_dates := good_quality_dates.length,
        data_quality_rating := data_quality,
        sample_dates := available_dates.take 10,
        timeseries := ndvi_timeseries.take 20,
        total_data_points := ndvi_timeseries.length,
        statistics := field_stats }

/-- A concrete environment used by witnesses: state is trivial, every
Gaussian draw is 0, `randint` returns its lower bound, `hash` is 0. -/
def sampleEnv : SimEnv Unit where
  hashStr := fun _ => 0
  seedFn := fun _ => ()
  rand := fun st => (0, st)
  gauss := fun _ _ st => (0, st)
  randint := fun lo _ st => (lo, st)
  randint_mem := fun lo _ _ h => ⟨le_refl lo, h⟩
  sinQ := fun _ => 0
  cosQ := fun _ => 1
  sqrtQ := fun _ => 0
  piQ := 0

/-- The concrete Zimbabwe polygon from the specification's test scenario. -/
def samplePolygon : List (ℚ × ℚ) :=
  [(32.5, -17.8), (32.6, -17.8), (32.6, -17.9), (32.5, -17.9), (32.5, -17.8)]

/-- A series point with a given index value, for concrete test series. -/
def mkPt (v : ℚ) : SeriesPoint := ⟨⟨2024, 1, 1⟩, v, 0, "Winter", 1⟩

/-- Six-point series whose half means differ by exactly 0.05. -/
def exStable : List SeriesPoint :=
  [mkPt 0.5, mkPt 0.5, mkPt 0.5, mkPt 0.55, mkPt 0.55, mkPt 0.55]

/-- Six-point series whose half means differ by exactly 0.06. -/
def exImproving : List SeriesPoint :=
  [mkPt 0.5, mkPt 0.5, mkPt 0.5, mkPt 0.56, mkPt 0.56, mkPt 0.56]

/-- Two-point series used by the median witness. -/
def twoPts : List SeriesPoint := [mkPt 0.5, mkPt 0.3]

lemma daysInMonth_bounds (y : ℤ) (m : ℕ) :
    28 ≤ daysInMonth y m ∧ daysInMonth y m ≤ 31 := by
  unfold daysInMonth
  split_ifs <;> omega

lemma succDay_valid {d : Date} (h : d.Valid) : (succDay d).Valid := by
  obtain ⟨h1, h2, h3, h4⟩ := h
  have hb := daysInMonth_bounds d.year d.month
  have hb1 := (daysInMonth_bounds d.year (d.month + 1)).1
  have hb2 := (daysInMonth_bounds (d.year + 1) 1).1
  unfold succDay
  split_ifs with hd hm <;>
    exact ⟨by dsimp only; omega, by dsimp only; omega,
      by dsimp only; omega, by dsimp only; omega⟩

lemma dkey_lt_succDay {d : Date} (h : d.Valid) : dkey d < dkey (succDay d) := by
  obtain ⟨h1, h2, h3, h4⟩ := h
  have hb := daysInMonth_bounds d.year d.month
  unfold succDay dkey
  split_ifs with hd hm <;> dsimp only <;> push_cast <;> omega

lemma addDays_valid {d : Date} (h : d.Valid) (n : ℕ) : (addDays d n).Valid := by
  induction n generalizing d with
  | zero => exact h
  | succ k ih => exact ih (succDay_valid h)

lemma dkey_le_addDays {d : Date} (h : d.Valid) (n : ℕ) :
    dkey d ≤ dkey (addDays d n) := by
  induction n generalizing d with
  | zero => simp [addDays]
  | succ k ih =>
    have h1 := dkey_lt_succDay h
    have h2 := ih (succDay_valid h)
    simp only [addDays]
    omega

lemma dkey_lt_addDays {d : Date} (h : d.Valid) {n : ℕ} (hn : 1 ≤ n) :
    dkey d < dkey (addDays d n) := by
  obtain ⟨k, rfl⟩ : ∃ k, n = k + 1 := ⟨n - 1, by omega⟩
  have h1 := dkey_lt_succDay h
  have h2 := dkey_le_addDays (succDay_valid h) k
  simp only [addDays]
  omega

lemma parseDate_valid {s : String} {d : Date} (h : parseDate s = some d) :
    d.Valid := by
  unfold parseDate at h
  split at h
  · split at h
    · split at h
      · rename_i hcond
        injection h with h'
        subst h'
        exact ⟨hcond.2.2.2.1, hcond.2.2.2.2.1, hcond.2.2.2.2.2.2.1,
          hcond.2.2.2.2.2.2.2⟩
      · exact absurd h (by simp)
    · exact absurd h (by simp)
  · exact absurd h (by simp)

lemma round_mono_q {x y : ℚ} (h : x ≤ y) : round x ≤ round y := by
  rw [round_eq, round_eq]
  exact Int.floor_mono (by linarith)

lemma roundTo_mono (n : ℕ) {x y : ℚ} (h : x ≤ y) : roundTo n x ≤ roundTo n y := by
  unfold roundTo
  have hp : (0 : ℚ) ≤ 10 ^ n := by positivity
  refine div_le_div_of_nonneg_right ?_ hp
  have : round (x * 10 ^ n) ≤ round (y * 10 ^ n) :=
    round_mono_q (by nlinarith)
  exact_mod_cast this

lemma roundTo_int_div (n : ℕ) (k : ℤ) :
    roundTo n ((k : ℚ) / 10 ^ n) = (k : ℚ) / 10 ^ n := by
  unfold roundTo
  have hp : ((10 : ℚ) ^ n) ≠ 0 := by positivity
  rw [div_mul_cancel₀ _ hp, round_intCast]

lemma roundTo_between {n : ℕ} {lo hi x : ℚ} (hlo : roundTo n lo = lo)
    (hhi : roundTo n hi = hi) (h1 : lo ≤ x) (h2 : x ≤ hi) :
    lo ≤ roundTo n x ∧ roundTo n x ≤ hi :=
  ⟨hlo ▸ roundTo_mono n h1, hhi ▸ roundTo_mono n h2⟩

lemma roundTo3_neg02 : roundTo 3 (-0.2 : ℚ) = -0.2 := by with_unfolding_all decide

lemma roundTo3_09 : roundTo 3 (0.9 : ℚ) = 0.9 := by with_unfolding_all decide

lemma roundTo1_0 : roundTo 1 (0 : ℚ) = 0 := by with_unfolding_all decide

lemma roundTo1_100 : roundTo 1 (100 : ℚ) = 100 := by with_unfolding_all decide

lemma genLoop_length_le {σ : Type} (E : SimEnv σ) (b a : ℚ) (s : Bool) (al : ℚ)
    (endD : Date) : ∀ (fuel : ℕ) (cur : Date) (st : σ),
    (genLoop E b a s al endD fuel cur st).length ≤ fuel := by
  intro fuel
  induction fuel with
  | zero => intro cur st; simp [genLoop]
  | succ k ih =>
    intro cur st
    simp only [genLoop]
    split
    · simpa using ih _ _
    · simp

lemma genLoop_head_date {σ : Type} (E : SimEnv σ) (b a : ℚ) (s : Bool) (al : ℚ)
    (endD : Date) (fuel : ℕ) (cur : Date) (st : σ) {h : SeriesPoint}
    {t : List SeriesPoint} (he : genLoop E b a s al endD fuel cur st = h :: t) :
    h.date = cur := by
  cases fuel with
  | zero => simp [genLoop] at he
  | succ k =>
    simp only [genLoop] at he
    split at he
    · exact (List.cons.injEq .. ▸ he).1 ▸ rfl
    · simp at he

lemma genLoop_mem_dates {σ : Type} (E : SimEnv σ) (b a : ℚ) (s : Bool) (al : ℚ)
    (endD : Date) : ∀ (fuel : ℕ) (cur : Date) (st : σ), cur.Valid →
    ∀ p ∈ genLoop E b a s al endD fuel cur st,
      dateLe cur p.date ∧ dateLe p.date endD := by
  intro fuel
  induction fuel with
  | zero => intro cur st _ p hp; simp [genLoop] at hp
  | succ k ih =>
    intro cur st hv p hp
    simp only [genLoop] at hp
    split at hp
    · rename_i hle
      rcases List.mem_cons.mp hp with hp | hp
      · subst hp
        exact ⟨le_refl _, hle⟩
      · have hd := ih _ _ (addDays_valid hv _) p hp
        exact ⟨le_trans (dkey_le_addDays hv _) hd.1, hd.2⟩
    · simp at hp

lemma genLoop_mem_ranges {σ : Type} (E : SimEnv σ) (b a : ℚ) (s : Bool) (al : ℚ)
    (endD : Date) : ∀ (fuel : ℕ) (cur : Date) (st : σ),
    ∀ p ∈ genLoop E b a s al endD fuel cur st,
      -0.2 ≤ p.ndvi ∧ p.ndvi ≤ 0.9 ∧
      0 ≤ p.cloud_percentage ∧ p.cloud_percentage ≤ 100 := by
  intro fuel
  induction fuel with
  | zero => intro cur st p hp; simp [genLoop] at hp
  | succ k ih =>
    intro cur st p hp
    simp only [genLoop] at hp
    split at hp
    · rcases List.mem_cons.mp hp with hp | hp
      · subst hp
        refine ⟨?_, ?_, ?_, ?_⟩
        · exact (roundTo_between roundTo3_neg02 roundTo3_09 (le_max_left _ _)
            (max_le (by norm_num) (min_le_left _ _))).1
        · exact (roundTo_between roundTo3_neg02 roundTo3_09 (le_max_left _ _)
            (max_le (by norm_num) (min_le_left _ _))).2
        · exact (roundTo_between roundTo1_0 roundTo1_100 (le_max_left _ _)
            (max_le (by norm_num) (min_le_left _ _))).1
        · exact (roundTo_between roundTo1_0 roundTo1_100 (le_max_left _ _)
            (max_le (by norm_num) (min_le_left _ _))).2
      · exact ih _ _ p hp
    · simp at hp

lemma genLoop_head_lt {σ : Type} (E : SimEnv σ) (b a : ℚ) (s : Bool) (al : ℚ)
    (endD : Date) (fuel : ℕ) (cur : Date) (st : σ) {c : ℤ}
    (hc : c < dkey cur) :
    ∀ q ∈ (genLoop E b a s al endD fuel cur st).head?, c < dkey q.date := by
  intro q hq
  rcases he : genLoop E b a s al endD fuel cur st with _ | ⟨h0, t0⟩
  · rw [he] at hq; simp at hq
  · rw [he] at hq
    have hh : h0 = q := by simpa using hq
    subst hh
    rw [genLoop_head_date E b a s al endD fuel cur st he]
    exact hc

lemma genLoop_chain {σ : Type} (E : SimEnv σ) (b a : ℚ) (s : Bool) (al : ℚ)
    (endD : Date) : ∀ (fuel : ℕ) (cur : Date) (st : σ), cur.Valid →
    (genLoop E b a s al endD fuel cur st).Chain'
      (fun p q => dateLt p.date q.date) := by
  intro fuel
  induction fuel with
  | zero => intro cur st _; simp [genLoop]
  | succ k ih =>
    intro cur st hv
    simp only [genLoop]
    split
    · rename_i hle
      have hmem := E.randint_mem 3 7
        (E.gauss 0 20 (E.gauss 0 0.04 st).2).2 (by norm_num)
      refine List.chain'_cons'.mpr ⟨?_, ih _ _ (addDays_valid hv _)⟩
      refine genLoop_head_lt E b a s al endD k _ _ ?_
      exact dkey_lt_addDays hv (by omega)
    · simp

lemma roundTo3_thousandth (x : ℚ) : ∃ k : ℤ, roundTo 3 x = (k : ℚ) / 1000 :=
  ⟨round (x * 10 ^ 3), by unfold roundTo; norm_num⟩

lemma genLoop_ndvi_thousandth {σ : Type} (E : SimEnv σ) (b a : ℚ) (s : Bool)
    (al : ℚ) (endD : Date) : ∀ (fuel : ℕ) (cur : Date) (st : σ),
    ∀ p ∈ genLoop E b a s al endD fuel cur st, ∃ k : ℤ, p.ndvi = (k : ℚ) / 1000 := by
  intro fuel
  induction fuel with
  | zero => intro cur st p hp; simp [genLoop] at hp
  | succ k ih =>
    intro cur st p hp
    simp only [genLoop] at hp
    split at hp
    · rcases List.mem_cons.mp hp with hp | hp
      · subst hp
        exact roundTo3_thousandth _
      · exact ih _ _ p hp
    · simp at hp

lemma generate_cons {σ : Type} (E : SimEnv σ) (c : ℚ × ℚ) (cs : List (ℚ × ℚ))
    (sd ed tile : String) :
    generate_realistic_ndvi_timeseries E (c :: cs) sd ed tile =
      ndviFromCenter E (centroidOf (c :: cs)) sd ed tile := rfl

lemma ndviFromCenter_eq_genLoop {σ : Type} {E : SimEnv σ} (c : ℚ × ℚ)
    {sd ed : String} {s e : Date} (tile : String)
    (hs : parseDate sd = some s) (he : parseDate ed = some e) :
    ndviFromCenter E c sd ed tile =
      genLoop E (climateParams |c.2|).1 (climateParams |c.2|).2
        (decide (c.2 < 0)) |c.2| e 50 s
        (E.seedFn (E.hashStr (tile ++ "_" ++ sd) % 2147483647)) := by
  simp only [ndviFromCenter, hs, he]

lemma ndviFromCenter_none {σ : Type} {E : SimEnv σ} {c : ℚ × ℚ}
    {sd ed tile : String} (h : parseDate sd = none ∨ parseDate ed = none) :
    ndviFromCenter E c sd ed tile = [] := by
  rcases h with h | h
  · rcases he : parseDate ed with _ | e <;> simp only [ndviFromCenter, h, he]
  · rcases hs : parseDate sd with _ | s <;> simp only [ndviFromCenter, hs, h]

lemma genLoop_nil_of_gt {σ : Type} (E : SimEnv σ) (b a : ℚ) (s : Bool) (al : ℚ)
    (endD : Date) (fuel : ℕ) (cur : Date) (st : σ) (h : ¬ dateLe cur endD) :
    genLoop E b a s al endD fuel cur st = [] := by
  cases fuel with
  | zero => rfl
  | succ k => simp only [genLoop]; rw [if_neg h]

lemma genLoop_head_map {σ : Type} (E : SimEnv σ) (b a : ℚ) (s : Bool) (al : ℚ)
    (endD : Date) (fuel : ℕ) (cur : Date) (st : σ) (hle : dateLe cur endD)
    (hf : 0 < fuel) :
    (genLoop E b a s al endD fuel cur st).head?.map SeriesPoint.date =
      some cur := by
  cases fuel with
  | zero => omega
  | succ k =>
    simp only [genLoop]
    rw [if_pos hle]
    simp

/-- C1: the series generator is deterministic — for the same start date, end
date and tile code, any two polygons with the same centroid (in particular,
two invocations on the same polygon) produce identical `SeriesPoint`
sequences, whatever the ambient hash/random/math environment is. -/
theorem series_determinism : ∀ (σ : Type) (E : SimEnv σ)
    (coords₁ coords₂ : List (ℚ × ℚ)) (sd ed tile : String),
    coords₁ ≠ [] → coords₂ ≠ [] → centroidOf coords₁ = centroidOf coords₂ →
    generate_realistic_ndvi_timeseries E coords₁ sd ed tile =
      generate_realistic_ndvi_timeseries E coords₂ sd ed tile := by
  intro σ E c1 c2 sd ed tile h1 h2 hc
  cases c1 with
  | nil => exact absurd rfl h1
  | cons a l1 =>
    cases c2 with
    | nil => exact absurd rfl h2
    | cons b l2 => rw [generate_cons, generate_cons, hc]

/-- Witness for C1 at two concrete distinct polygons sharing a centroid. -/
theorem series_determinism_witness :
    generate_realistic_ndvi_timeseries sampleEnv [((0 : ℚ), (0 : ℚ)), (3, 3)]
        "2024-01-01" "2024-01-10" "XX" =
      generate_realistic_ndvi_timeseries sampleEnv [((1 : ℚ), (1 : ℚ)), (2, 2)]
        "2024-01-01" "2024-01-10" "XX" :=
  series_determinism Unit sampleEnv _ _ _ _ _ (by simp) (by simp)
    (by with_unfolding_all decide)

/-- C4: every generated point has `index_value` in `[-0.2, 0.9]` and
`cloud_percentage` in `[0, 100]`, and the dates of consecutive points are
strictly increasing — for every input and every environment. -/
theorem series_range_invariants : ∀ (σ : Type) (E : SimEnv σ)
    (coords : List (ℚ × ℚ)) (sd ed tile : String),
    (∀ p ∈ generate_realistic_ndvi_timeseries E coords sd ed tile,
        -0.2 ≤ p.ndvi ∧ p.ndvi ≤ 0.9 ∧
        0 ≤ p.cloud_percentage ∧ p.cloud_percentage ≤ 100) ∧
    (generate_realistic_ndvi_timeseries E coords sd ed tile).Chain'
      (fun p q => dateLt p.date q.date) := by
  intro σ E coords sd ed tile
  cases coords with
  | nil => exact ⟨by simp [generate_realistic_ndvi_timeseries], by
      simp [generate_realistic_ndvi_timeseries]⟩
  | cons c cs =>
    rw [generate_cons]
    rcases hs : parseDate sd with _ | s
    · rw [ndviFromCenter_none (Or.inl hs)]
      exact ⟨by simp, by simp⟩
    · rcases he : parseDate ed with _ | e
      · rw [ndviFromCenter_none (Or.inr he)]
        exact ⟨by simp, by simp⟩
      · rw [ndviFromCenter_eq_genLoop _ _ hs he]
        exact ⟨genLoop_mem_ranges _ _ _ _ _ _ _ _ _,
          genLoop_chain _ _ _ _ _ _ _ _ _ (parseDate_valid hs)⟩

/-- Witness for C4: the bounds instantiated at the specification's concrete
scenario, evaluated on the first generated point. -/
theorem series_range_invariants_witness :
    -0.2 ≤ ((generate_realistic_ndvi_timeseries sampleEnv samplePolygon
        "2024-01-01" "2024-03-01" "35MPN").headD (mkPt 0)).ndvi ∧
      ((generate_realistic_ndvi_timeseries sampleEnv samplePolygon
        "2024-01-01" "2024-03-01" "35MPN").headD (mkPt 0)).ndvi ≤ 0.9 := by
  have hne : generate_realistic_ndvi_timeseries sampleEnv samplePolygon
      "2024-01-01" "2024-03-01" "35MPN" ≠ [] := by with_unfolding_all decide
  obtain ⟨a, t, he⟩ := List.exists_cons_of_ne_nil hne
  have hmem : (generate_realistic_ndvi_timeseries sampleEnv samplePolygon
      "2024-01-01" "2024-03-01" "35MPN").headD (mkPt 0) ∈
      generate_realistic_ndvi_timeseries sampleEnv samplePolygon
        "2024-01-01" "2024-03-01" "35MPN" := by
    rw [he]
    simp
  have h := (series_range_invariants Unit sampleEnv samplePolygon
    "2024-01-01" "2024-03-01" "35MPN").1 _ hmem
  exact ⟨h.1, h.2.1⟩

/-- C9: with parseable dates the generated series has at most 50 points and
every point's date lies between the start and end dates inclusive. -/
theorem series_cap_and_date_bounds : ∀ (σ : Type) (E : SimEnv σ)
    (coords : List (ℚ × ℚ)) (sd ed tile : String) (s e : Date),
    parseDate sd = some s → parseDate ed = some e →
    (generate_realistic_ndvi_timeseries E coords sd ed tile).length ≤ 50 ∧
    ∀ p ∈ generate_realistic_ndvi_timeseries E coords sd ed tile,
      dateLe s p.date ∧ dateLe p.date e := by
  intro σ E coords sd ed tile s e hs he
  cases coords with
  | nil => exact ⟨by simp [generate_realistic_ndvi_timeseries], by
      simp [generate_realistic_ndvi_timeseries]⟩
  | cons c cs =>
    rw [generate_cons, ndviFromCenter_eq_genLoop _ _ hs he]
    exact ⟨genLoop_length_le _ _ _ _ _ _ _ _ _,
      genLoop_mem_dates _ _ _ _ _ _ _ _ _ (parseDate_valid hs)⟩

/-- Witness for C9 at the specification's concrete scenario. -/
theorem series_cap_and_date_bounds_witness :
    (generate_realistic_ndvi_timeseries sampleEnv samplePolygon
      "2024-01-01" "2024-03-01" "35MPN").length ≤ 50 :=
  (series_cap_and_date_bounds Unit sampleEnv samplePolygon
    "2024-01-01" "2024-03-01" "35MPN" ⟨2024, 1, 1⟩ ⟨2024, 3, 1⟩
    (by with_unfolding_all decide) (by with_unfolding_all decide)).1

/-- C10: when both dates parse and the start is not after the end, the series
is non-empty and its first point is dated exactly at the start date. -/
theorem series_first_point : ∀ (σ : Type) (E : SimEnv σ)
    (coords : List (ℚ × ℚ)) (sd ed tile : String) (s e : Date),
    coords ≠ [] → parseDate sd = some s → parseDate ed = some e → dateLe s e →
    (generate_realistic_ndvi_timeseries E coords sd ed tile).head?.map
      SeriesPoint.date = some s := by
  intro σ E coords sd ed tile s e hne hs he hle
  cases coords with
  | nil => exact absurd rfl hne
  | cons c cs =>
    rw [generate_cons, ndviFromCenter_eq_genLoop _ _ hs he]
    exact genLoop_head_map _ _ _ _ _ _ _ _ _ hle (by norm_num)

/-- Witness for C10 at the specification's concrete scenario. -/
theorem series_first_point_witness :
    (generate_realistic_ndvi_timeseries sampleEnv samplePolygon
      "2024-01-01" "2024-03-01" "35MPN").head?.map SeriesPoint.date =
      some ⟨2024, 1, 1⟩ :=
  series_first_point Unit sampleEnv samplePolygon "2024-01-01" "2024-03-01"
    "35MPN" ⟨2024, 1, 1⟩ ⟨2024, 3, 1⟩ (by simp [samplePolygon])
    (by with_unfolding_all decide) (by with_unfolding_all decide)
    (by with_unfolding_all decide)

/-- C7: an inverted date range yields an empty series as a non-error outcome,
and the statistics function maps an empty series to the structured
empty-series signal rather than any fault. -/
theorem empty_series_and_stats :
    (∀ (σ : Type) (E : SimEnv σ) (coords : List (ℚ × ℚ))
      (sd ed tile : String) (s e : Date),
      parseDate sd = some s → parseDate ed = some e → dateLt e s →
      generate_realistic_ndvi_timeseries E coords sd ed tile = []) ∧
    (∀ (σ : Type) (E : SimEnv σ),
      calculate_field_statistics E [] = StatsResult.err "No NDVI data available") := by
  constructor
  · intro σ E coords sd ed tile s e hs he hlt
    cases coords with
    | nil => rfl
    | cons c cs =>
      rw [generate_cons, ndviFromCenter_eq_genLoop _ _ hs he]
      refine genLoop_nil_of_gt _ _ _ _ _ _ _ _ _ ?_
      unfold dateLe
      unfold dateLt at hlt
      omega
  · intro σ E
    rfl

/-- Witness for C7 at a concrete inverted date range. -/
theorem empty_series_and_stats_witness :
    generate_realistic_ndvi_timeseries sampleEnv samplePolygon
        "2024-03-01" "2024-01-01" "35MPN" = [] ∧
      calculate_field_statistics sampleEnv [] =
        StatsResult.err "No NDVI data available" :=
  ⟨empty_series_and_stats.1 Unit sampleEnv samplePolygon "2024-03-01"
      "2024-01-01" "35MPN" ⟨2024, 3, 1⟩ ⟨2024, 1, 1⟩
      (by with_unfolding_all decide) (by with_unfolding_all decide)
      (by with_unfolding_all decide),
    empty_series_and_stats.2 Unit sampleEnv⟩

lemma tileSearch_spec (lon lat : ℚ) : ∀ l : List MgrsRegion,
    (∀ r, l.find? (fun r => decide (regionContains r lon lat)) = some r →
      tileSearch lon lat l = (r.tile, r.name)) ∧
    (l.find? (fun r => decide (regionContains r lon lat)) = none →
      tileSearch lon lat l = tileSearch lon lat []) := by
  intro l
  induction l with
  | nil => exact ⟨by simp, fun _ => rfl⟩
  | cons r0 rest ih =>
    by_cases hc : regionContains r0 lon lat
    · constructor
      · intro r hr
        rw [List.find?_cons_of_pos _ (by simpa using hc)] at hr
        injection hr with hr
        subst hr
        simp [tileSearch, hc]
      · intro hr
        rw [List.find?_cons_of_pos _ (by simpa using hc)] at hr
        cases hr
    · have hts : tileSearch lon lat (r0 :: rest) = tileSearch lon lat rest := by
        simp [tileSearch, hc]
      constructor
      · intro r hr
        rw [List.find?_cons_of_neg _ (by simpa using hc)] at hr
        rw [hts]
        exact ih.1 r hr
      · intro hr
        rw [List.find?_cons_of_neg _ (by simpa using hc)] at hr
        rw [hts]
        exact ih.2 hr

/-- C3: the resolver is total (it is a function into region/tile pairs), it
returns the first table region in declaration order whose box contains the
point with inclusive bounds on all four sides, and when no box contains the
point it falls back by longitude band: `[-180, -30]` to the Americas default,
`[-30, 60]` to the Europe/Africa default, and anything else to the
Asia/Pacific default. -/
theorem resolver_first_match_and_fallback : ∀ lon lat : ℚ,
    (∀ r : MgrsRegion,
      mgrs_regions.find? (fun r => decide (regionContains r lon lat)) = some r →
      find_mgrs_tile_for_coords lon lat = (r.tile, r.name)) ∧
    (mgrs_regions.find? (fun r => decide (regionContains r lon lat)) = none →
      find_mgrs_tile_for_coords lon lat =
        if -180 ≤ lon ∧ lon ≤ -30 then ("18TWL", "Americas (default)")
        else if -30 ≤ lon ∧ lon ≤ 60 then ("36MZA", "Europe/Africa (default)")
        else ("48NUG", "Asia/Pacific (default)")) := by
  intro lon lat
  exact ⟨fun r hr => (tileSearch_spec lon lat mgrs_regions).1 r hr,
    fun hr => (tileSearch_spec lon lat mgrs_regions).2 hr⟩

/-- Witness for C3: a point inside the first table box, and a point outside
every box resolving through the longitude fallback. -/
theorem resolver_witness :
    find_mgrs_tile_for_coords 33 (-20) = ("35MPN", "Southern Africa") ∧
    find_mgrs_tile_for_coords 200 0 = ("48NUG", "Asia/Pacific (default)") := by
  constructor
  · exact (resolver_first_match_and_fallback 33 (-20)).1
      ⟨"Southern Africa", 28, -35, 38, -15, "35MPN"⟩
      (by with_unfolding_all decide)
  · have h := (resolver_first_match_and_fallback 200 0).2
      (by with_unfolding_all decide)
    rw [h, if_neg (by norm_num), if_neg (by norm_num)]

/-- C5 counterexample: the code has a fourth climate zone — at `|lat| = 45`
the parameters are `(0.35, 0.35)` but at `|lat| = 70` they are
`(0.20, 0.15)`, so centroids with `|lat| ≥ 40` do not share one fixed pair
and the seasonal amplitude is not monotone in `|lat|` across zones. -/
theorem climate_zone_counterexample :
    (40 : ℚ) ≤ 45 ∧ (40 : ℚ) ≤ 70 ∧
    climateParams 45 ≠ climateParams 70 ∧
    (climateParams 70).2 < (climateParams 45).2 := by
  refine ⟨by norm_num, by norm_num, ?_, ?_⟩ <;> with_unfolding_all decide

/-- C5 amended: classification by `abs(latitude)` uses four zones —
tropical `< 23.5°` with `(0.65, 0.15)`, temperate `[23.5°, 40°)` with
`(0.45, 0.25)`, cool temperate `[40°, 60°)` with `(0.35, 0.35)`, and
arctic/antarctic `≥ 60°` with `(0.20, 0.15)`; all centroids with
`40° ≤ |lat| < 60°` share one fixed pair, and the seasonal amplitude is
monotonically non-decreasing in `|lat|` only below `60°`. -/
theorem climate_zone_classification :
    (∀ a : ℚ, 0 ≤ a → a < 23.5 → climateParams a = (0.65, 0.15)) ∧
    (∀ a : ℚ, 23.5 ≤ a → a < 40 → climateParams a = (0.45, 0.25)) ∧
    (∀ a : ℚ, 40 ≤ a → a < 60 → climateParams a = (0.35, 0.35)) ∧
    (∀ a : ℚ, 60 ≤ a → climateParams a = (0.20, 0.15)) ∧
    (∀ a b : ℚ, 0 ≤ a → a ≤ b → b < 60 →
      (climateParams a).2 ≤ (climateParams b).2) := by
  refine ⟨?_, ?_, ?_, ?_, ?_⟩
  · intro a h0 h1
    rw [climateParams, if_pos h1]
  · intro a h0 h1
    rw [climateParams, if_neg (by linarith), if_pos h1]
  · intro a h0 h1
    rw [climateParams, if_neg (by linarith), if_neg (by linarith), if_pos h1]
  · intro a h
    rw [climateParams, if_neg (by linarith), if_neg (by linarith),
      if_neg (by linarith)]
  · intro a b h0 hab hb
    unfold climateParams
    split_ifs <;> norm_num <;> linarith

/-- Witness for C5: each zone evaluated at an interior latitude, and the
amplitude comparison across the first and third zones. -/
theorem climate_zone_classification_witness :
    climateParams 10 = (0.65, 0.15) ∧ climateParams 30 = (0.45, 0.25) ∧
    climateParams 45 = (0.35, 0.35) ∧ climateParams 75 = (0.20, 0.15) ∧
    (climateParams 10).2 ≤ (climateParams 45).2 :=
  ⟨climate_zone_classification.1 10 (by norm_num) (by norm_num),
    climate_zone_classification.2.1 30 (by norm_num) (by norm_num),
    climate_zone_classification.2.2.1 45 (by norm_num) (by norm_num),
    climate_zone_classification.2.2.2.1 75 (by norm_num),
    climate_zone_classification.2.2.2.2 10 45 (by norm_num) (by norm_num)
      (by norm_num)⟩

/-- C6: a series of fewer than five points gets the insufficient-data
verdict; otherwise the series is split at index `N / 2` and the verdict
compares the two half means against the strict `±0.05` thresholds. -/
theorem trend_verdict_spec : ∀ s : List SeriesPoint,
    (s.length < 5 → analyze_trend s = "Insufficient data for trend analysis") ∧
    (5 ≤ s.length →
      analyze_trend s =
        (if 0.05 < meanQ ((s.drop (s.length / 2)).map (·.ndvi)) -
            meanQ ((s.take (s.length / 2)).map (·.ndvi))
         then "Improving vegetation health"
         else if meanQ ((s.drop (s.length / 2)).map (·.ndvi)) -
            meanQ ((s.take (s.length / 2)).map (·.ndvi)) < -0.05
         then "Declining vegetation health"
         else "Stable vegetation health")) := by
  intro s
  constructor
  · intro h
    unfold analyze_trend
    rw [if_pos h]
  · intro h
    unfold analyze_trend
    rw [if_neg (by omega)]
    rfl

/-- Witness for C6: a half-mean difference of exactly 0.05 is Stable, of
exactly 0.06 is Improving, and a short series is insufficient data. -/
theorem trend_verdict_witness :
    analyze_trend exStable = "Stable vegetation health" ∧
    analyze_trend exImproving = "Improving vegetation health" ∧
    analyze_trend [] = "Insufficient data for trend analysis" := by
  refine ⟨?_, ?_, ?_⟩
  · have h := (trend_verdict_spec exStable).2 (by with_unfolding_all decide)
    rw [h, if_neg (by with_unfolding_all decide),
      if_neg (by with_unfolding_all decide)]
  · have h := (trend_verdict_spec exImproving).2 (by with_unfolding_all decide)
    rw [h, if_pos (by with_unfolding_all decide)]
  · exact (trend_verdict_spec []).1 (by simp)

lemma getD_mem {l : List ℚ} {n : ℕ} (h : n < l.length) : l.getD n 0 ∈ l := by
  rw [List.getD_eq_getElem?_getD, List.getElem?_eq_getElem h]
  simp [List.getElem_mem h]

/-- C8: on a non-empty series the reported median is (the 3-decimal rounding
of) the element at index `N / 2` of the index values sorted ascending; since
every generator-produced index value is already a multiple of `1/1000`, the
rounding is the identity there and the reported median equals that element
exactly. -/
theorem median_upper_middle :
    (∀ (σ : Type) (E : SimEnv σ) (series : List SeriesPoint), series ≠ [] →
      (calculate_field_statistics E series).medianOf =
        some (roundTo 3 (((series.map (·.ndvi)).insertionSort (· ≤ ·)).getD
          (series.length / 2) 0)) ∧
      ((∀ p ∈ series, ∃ k : ℤ, p.ndvi = (k : ℚ) / 1000) →
        (calculate_field_statistics E series).medianOf =
          some (((series.map (·.ndvi)).insertionSort (· ≤ ·)).getD
            (series.length / 2) 0))) ∧
    (∀ (σ : Type) (E : SimEnv σ) (coords : List (ℚ × ℚ)) (sd ed tile : String),
      ∀ p ∈ generate_realistic_ndvi_timeseries E coords sd ed tile,
        ∃ k : ℤ, p.ndvi = (k : ℚ) / 1000) := by
  constructor
  · intro σ E series hne
    have hmed : (calculate_field_statistics E series).medianOf =
        some (roundTo 3 (((series.map (·.ndvi)).insertionSort (· ≤ ·)).getD
          (series.length / 2) 0)) := by
      cases series with
      | nil => exact absurd rfl hne
      | cons a l =>
        simp only [calculate_field_statistics, StatsResult.medianOf,
          List.length_map]
    refine ⟨hmed, fun hall => ?_⟩
    rw [hmed]
    have hlen : series.length / 2 <
        ((series.map (·.ndvi)).insertionSort (· ≤ ·)).length := by
      rw [List.length_insertionSort, List.length_map]
      have : 0 < series.length := List.length_pos.mpr hne
      omega
    have hmem := getD_mem hlen
    rw [List.mem_insertionSort] at hmem
    obtain ⟨p, hp, hpe⟩ := List.mem_map.mp hmem
    obtain ⟨k, hk⟩ := hall p hp
    rw [← hpe, hk]
    have h1000 : ((1000 : ℚ)) = 10 ^ 3 := by norm_num
    rw [h1000]
    rw [roundTo_int_div]
  · intro σ E coords sd ed tile
    cases coords with
    | nil => simp [generate_realistic_ndvi_timeseries]
    | cons c cs =>
      rw [generate_cons]
      rcases hs : parseDate sd with _ | s
      · rw [ndviFromCenter_none (Or.inl hs)]
        simp
      · rcases he : parseDate ed with _ | e
        · rw [ndviFromCenter_none (Or.inr he)]
          simp
        · rw [ndviFromCenter_eq_genLoop _ _ hs he]
          exact genLoop_ndvi_thousandth _ _ _ _ _ _ _ _ _

/-- Witness for C8 on a concrete two-point series: the median is the
upper-middle element of the sorted values. -/
theorem median_upper_middle_witness :
    (calculate_field_statistics sampleEnv twoPts).medianOf = some 0.5 := by
  have h := (median_upper_middle.1 Unit sampleEnv twoPts (by simp [twoPts])).2 ?_
  · rw [h, show (((twoPts.map (·.ndvi)).insertionSort (· ≤ ·)).getD
      (twoPts.length / 2) 0) = 0.5 from by with_unfolding_all decide]
  · intro p hp
    rcases (by simpa [twoPts] using hp : p = mkPt 0.5 ∨ p = mkPt 0.3) with h | h
    · exact ⟨500, by rw [h]; with_unfolding_all decide⟩
    · exact ⟨300, by rw [h]; with_unfolding_all decide⟩

lemma generate_none {σ : Type} (E : SimEnv σ) (coords : List (ℚ × ℚ))
    {sd ed : String} (tile : String)
    (h : parseDate sd = none ∨ parseDate ed = none) :
    generate_realistic_ndvi_timeseries E coords sd ed tile = [] := by
  cases coords with
  | nil => rfl
  | cons c cs => rw [generate_cons, ndviFromCenter_none h]

/-- C2 amended: a polygon with fewer than three vertices produces the
structured failure result carrying the validation message and field name;
but an unparseable start or end date does not fail — the parse error is
swallowed inside the generator, and the request returns a success result
whose series is empty and whose statistics field is the error-tagged
empty-series value.  No input raises an unhandled fault. -/
theorem process_validation_behavior : ∀ (σ : Type) (E : SimEnv σ)
    (coords : List (ℚ × ℚ)) (sd ed fn now : String),
    (coords.length < 3 →
      process_field_request E coords sd ed fn now =
        FieldResult.err "Need at least 3 coordinate points to form a polygon"
          fn now) ∧
    ((parseDate sd = none ∨ parseDate ed = none) → 3 ≤ coords.length →
      (process_field_request E coords sd ed fn now).success = true ∧
      (process_field_request E coords sd ed fn now).seriesOf = some [] ∧
      (process_field_request E coords sd ed fn now).statsOf =
        some (StatsResult.err "No NDVI data available")) := by
  intro σ E coords sd ed fn now
  constructor
  · intro h
    unfold process_field_request
    rw [if_pos h]
  · intro hbad h3
    unfold process_field_request
    rw [if_neg (by omega)]
    refine ⟨rfl, ?_, ?_⟩
    · show some ((generate_realistic_ndvi_timeseries E coords sd ed _).take 20) =
        some []
      rw [generate_none E coords _ hbad]
      rfl
    · show some (calculate_field_statistics E
        (generate_realistic_ndvi_timeseries E coords sd ed _)) = some _
      rw [generate_none E coords _ hbad]
      rfl

/-- C2 counterexample: with an unparseable start date (month 13) and a valid
polygon, `process_field_request` returns a success result, not the
invalid-input failure the claim requires. -/
theorem process_invalid_date_counterexample :
    parseDate "2024-13-01" = none ∧
    (process_field_request sampleEnv samplePolygon "2024-13-01" "2024-01-01"
      "My Farm Field" "ts").success = true := by
  constructor
  · with_unfolding_all decide
  · with_unfolding_all decide

/-- Witness for C2 (amended): both branches at concrete inputs. -/
theorem process_validation_witness :
    process_field_request sampleEnv [((0 : ℚ), (0 : ℚ))] "2024-01-01"
        "2024-03-01" "f" "t" =
      FieldResult.err "Need at least 3 coordinate points to form a polygon"
        "f" "t" ∧
    (process_field_request sampleEnv samplePolygon "bad-date" "2024-01-01"
      "f" "t").success = true ∧
    (process_field_request sampleEnv samplePolygon "bad-date" "2024-01-01"
      "f" "t").seriesOf = some [] ∧
    (process_field_request sampleEnv samplePolygon "bad-date" "2024-01-01"
      "f" "t").statsOf = some (StatsResult.err "No NDVI data available") := by
  have h := (process_validation_behavior Unit sampleEnv samplePolygon
    "bad-date" "2024-01-01" "f" "t").2
    (Or.inl (by with_unfolding_all decide)) (by simp [samplePolygon])
  exact ⟨(process_validation_behavior Unit sampleEnv [((0 : ℚ), (0 : ℚ))]
      "2024-01-01" "2024-03-01" "f" "t").1 (by simp),
    h.1, h.2.1, h.2.2⟩
